import Mathlib

/-!
Shallow embedding of the knight-code AI provider subsystem
(src/ai/index.ts, src/ai/ollama-client.ts, src/ai/lmstudio-client.ts,
src/ai/provider.ts, src/errors/types.ts), with the network modelled as
an oracle: each embedded operation takes the backend's reaction as an
explicit argument, and JavaScript exceptions are modelled with `Except`.
-/

namespace KnightCode

/-- Error categories from src/errors/types.ts (`ErrorCategory`); only the
members reachable from the AI subsystem are listed. -/
inductive ErrorCategory where
  | connection
  | aiService
  | timeoutCat
  | apiCat
  | initializationCat
  | configuration
  | unknown
deriving DecidableEq, Repr

/-- A thrown JavaScript value as observed by the catch blocks of the AI
subsystem.  `userErr` is an instance of the `UserError` class of
src/errors/types.ts (message, category, optional resolution, optional
`cause` property; the `level` and `details` payloads are carried by no
claim and are not modelled).  The `cause` field exists because a thrown
`Error` value can in general carry a `cause` property; the `UserError`
constructor itself drops `options.cause`, so every taxonomy error this
program builds has it absent — see `createUserError`.
`plainErr` is a plain `Error` (e.g. `new Error(msg)`, a
fetch rejection, or the timeout wrapper firing); `objectErr` is a thrown
non-Error object — `objectErr none` has no `error` own-property,
`objectErr (some m)` has an `error` object field whose `message` is `m`
when present. -/
inductive Thrown where
  | userErr (message : String) (category : ErrorCategory)
      (resolution : Option String) (cause : Option Thrown)
  | plainErr (message : String)
  | objectErr (errMessage : Option (Option String))

/-- Whether a thrown value is a typed error of the taxonomy
(an instance of `UserError`). -/
def Thrown.isTaxonomy : Thrown → Bool
  | .userErr _ _ _ _ => true
  | _ => false

/-- The `category` property of a thrown value (`none` for values that are
not `UserError` instances). -/
def Thrown.categoryOf : Thrown → Option ErrorCategory
  | .userErr _ c _ _ => some c
  | _ => none

/-- The `message` property of a thrown value (a thrown plain object has
no meaningful `message`; the empty string stands for its absence). -/
def Thrown.messageOf : Thrown → String
  | .userErr m _ _ _ => m
  | .plainErr m => m
  | .objectErr _ => ""

/-- The `cause` property of a thrown value. -/
def Thrown.causeOf : Thrown → Option Thrown
  | .userErr _ _ _ c => c
  | _ => none

/-- The `resolution` property of a thrown value. -/
def Thrown.resolutionOf : Thrown → Option String
  | .userErr _ _ r _ => r
  | _ => none

/-- `error instanceof Error`: `UserError` extends `Error`; a thrown plain
object is not an `Error` instance. -/
def Thrown.isErrorInstance : Thrown → Bool
  | .objectErr _ => false
  | _ => true

/-- `createUserError` of src/errors/formatter.ts: it constructs
`new UserError(message, options)` (plus logging).  The `UserError`
constructor of src/errors/types.ts stores only `category`, `level`,
`resolution` and `details` — `options.cause` is silently dropped — so
every taxonomy error this program creates carries no `cause`, even when
the call site passes one.  The `cause` parameter is kept to mirror the
call sites and is discarded exactly as the constructor discards it. -/
def createUserError (message : String) (category : ErrorCategory)
    (resolution : Option String) (_cause : Option Thrown) : Thrown :=
  .userErr message category resolution none

/-- JavaScript `x || d` on an optional string: `undefined` and the empty
string are falsy. -/
def jsOrS (x : Option String) (d : String) : String :=
  match x with
  | none => d
  | some s => if s = "" then d else s

/-- JavaScript `x || d` on an optional number where the code supplies a
numeric default: `undefined` and `0` are falsy. -/
def jsOrN (x : Option Nat) (d : Nat) : Nat :=
  match x with
  | none => d
  | some n => if n = 0 then d else n

/-- Whether the first character list is an initial segment of the
second. -/
def leadsWith : List Char → List Char → Bool
  | [], _ => true
  | _ :: _, [] => false
  | a :: as, b :: bs => a == b && leadsWith as bs

/-- Whether the first character list occurs somewhere inside the
second. -/
def occursIn (pat : List Char) : List Char → Bool
  | [] => leadsWith pat []
  | b :: bs => leadsWith pat (b :: bs) || occursIn pat bs

/-- Substring test (JavaScript `s.includes(pat)`). -/
def strContains (s pat : String) : Bool :=
  occursIn pat.data s.data

/-- Message role, src/ai/provider.ts (`Message.role`). -/
inductive Role where
  | user
  | assistant
  | system
deriving DecidableEq, Repr

/-- src/ai/provider.ts `Message`. -/
structure Message where
  role : Role
  content : String
deriving DecidableEq, Repr

/-- src/ai/provider.ts `CompletionOptions`. -/
structure CompletionOptions where
  model : Option String := none
  temperature : Option Rat := none
  maxTokens : Option Nat := none
  topP : Option Rat := none
  topK : Option Nat := none
  stopSequences : Option (List String) := none
  stream : Option Bool := none
  system : Option String := none
  messages : List Message

/-- src/ai/provider.ts `CompletionResponse.usage`. -/
structure Usage where
  input_tokens : Nat
  output_tokens : Nat
deriving DecidableEq, Repr

/-- One element of `CompletionResponse.content`. -/
structure ContentBlock where
  type : String
  text : String
deriving DecidableEq, Repr

/-- src/ai/provider.ts `CompletionResponse`. -/
structure CompletionResponse where
  id : String
  model : String
  usage : Usage
  content : List ContentBlock
  stop_reason : Option String
deriving DecidableEq, Repr

/-- src/ai/provider.ts `StreamEvent.type` tags. -/
inductive StreamEventType where
  | message_start
  | content_block_start
  | content_block_delta
  | content_block_stop
  | message_delta
  | message_stop
deriving DecidableEq, Repr

/-- The `message` payload of a `StreamEvent`. -/
structure StreamMessage where
  id : String
  model : String
  content : List ContentBlock
  stop_reason : Option String
deriving DecidableEq, Repr

/-- The `delta` payload of a `StreamEvent`. -/
structure StreamDelta where
  type : String
  text : String
deriving DecidableEq, Repr

/-- src/ai/provider.ts `StreamEvent` (the `index` and `usage_metadata`
fields are produced on no code path of the two adapters). -/
structure StreamEvent where
  type : StreamEventType
  message : Option StreamMessage := none
  delta : Option StreamDelta := none
deriving DecidableEq, Repr

/-- Retry options shared by both adapters' `DEFAULT_CONFIG.retryOptions`. -/
structure RetryOptions where
  maxRetries : Nat
  initialDelayMs : Nat
  maxDelayMs : Nat
deriving DecidableEq, Repr

/-! ### Ollama adapter (src/ai/ollama-client.ts) -/

/-- src/ai/ollama-client.ts `DEFAULT_CONFIG`, merged with the constructor
argument into the instance's `config`. -/
structure OllamaConfig where
  apiBaseUrl : String := "http://localhost:11434"
  timeout : Nat := 60000
  retryOptions : RetryOptions := { maxRetries := 3, initialDelayMs := 1000, maxDelayMs := 10000 }
  defaultModel : String := "devstral:24b"
  defaultMaxTokens : Nat := 4096
  defaultTemperature : Rat := 0.7

/-- The body `complete` POSTs to `/api/generate` (the `request` literal of
`OllamaClient.complete`): note it carries no `system` field and a single
flattened `prompt`. -/
structure OllamaGenerateRequest where
  model : String
  prompt : String
  stream : Bool
  temperature : Rat
  num_predict : Nat
  top_p : Option Rat
  top_k : Option Nat
  stop : Option (List String)

/-- Build the request exactly as `OllamaClient.complete` does:
`model: options.model || this.config.defaultModel`,
`prompt: messages.map(m => m.content).join(String.singleton newline)`,
`temperature: options.temperature ?? default`,
`num_predict: options.maxTokens || default`. -/
def ollamaBuildRequest (cfg : OllamaConfig) (options : CompletionOptions) :
    OllamaGenerateRequest :=
  { model := jsOrS options.model cfg.defaultModel
    prompt := String.intercalate "\n" (options.messages.map Message.content)
    stream := false
    temperature := options.temperature.getD cfg.defaultTemperature
    num_predict := jsOrN options.maxTokens cfg.defaultMaxTokens
    top_p := options.topP
    top_k := options.topK
    stop := options.stopSequences }

/-- Ollama success payload of `POST /api/generate` (non-streaming):
`{ model, response, prompt_eval_count, eval_count }`; the two counters may
be absent. -/
structure OllamaGenerateResponse where
  model : String
  response : String
  prompt_eval_count : Option Nat
  eval_count : Option Nat

/-- How the wrapped transport settles for one Ollama request.
`netError e` is a rejection of the wrapped call (fetch failure, the
timeout wrapper firing, or `response.json()` failing to parse);
`httpError status errBody` is a non-2xx response, where `errBody = none`
means the error body is not parseable JSON and `errBody = some m` means it
parsed with `error.message = m` when `m` is present;
`success body` is a 2xx response with a parsed body. -/
inductive OllamaTransport where
  | netError (e : Thrown)
  | httpError (status : Nat) (errBody : Option (Option String))
  | success (body : OllamaGenerateResponse)

/-- `OllamaClient.handleErrorResponse`: parse a structured error body, or
fall back to a message synthesized from the status code, and throw a
taxonomy error with category `AI_SERVICE`. -/
def ollamaHandleErrorResponse (status : Nat) (errBody : Option (Option String)) : Thrown :=
  match errBody with
  | some m => createUserError ("Ollama API error: " ++ jsOrS m "Unknown error")
      ErrorCategory.aiService none none
  | none => createUserError ("Ollama API error: HTTP error " ++ toString status)
      ErrorCategory.aiService none none

/-- `OllamaClient.sendRequest`: fetch, call `handleErrorResponse` on a
non-OK status, otherwise return the parsed JSON body. -/
def ollamaSendRequest (t : OllamaTransport) : Except Thrown OllamaGenerateResponse :=
  match t with
  | .netError e => .error e
  | .httpError status errBody => .error (ollamaHandleErrorResponse status errBody)
  | .success body => .ok body

/-- The catch block of `OllamaClient.complete`: reads
`error.error?.message` when the caught value is an object with an `error`
own-property, defaults to the string `Unknown error` otherwise, and throws
`new Error(errorMessage)`.  `UserError` and plain `Error` instances have
no `error` own-property, so they always map to `Unknown error`. -/
def ollamaCompleteCatch (e : Thrown) : Thrown :=
  match e with
  | .objectErr (some m) => .plainErr (jsOrS m "Unknown error")
  | _ => .plainErr "Unknown error"

/-- `OllamaClient.complete`: build the request, run it through the
retry/timeout-wrapped `sendRequest` (the oracle `backend` gives the
settled outcome for the built request), normalize a success payload into
`CompletionResponse` (`id` is `Date.now().toString()`, passed in as
`nowId`), and route any failure through the catch block. -/
def ollamaComplete (cfg : OllamaConfig) (options : CompletionOptions) (nowId : String)
    (backend : OllamaGenerateRequest → OllamaTransport) :
    Except Thrown CompletionResponse :=
  match ollamaSendRequest (backend (ollamaBuildRequest cfg options)) with
  | .ok r =>
      .ok { id := nowId
            model := r.model
            usage := { input_tokens := r.prompt_eval_count.getD 0
                       output_tokens := r.eval_count.getD 0 }
            content := [{ type := "text", text := r.response }]
            stop_reason := none }
  | .error e => .error (ollamaCompleteCatch e)

/-- The `message` payload both adapters build from a `CompletionResponse`
inside `completeStream`. -/
def streamMessageOf (r : CompletionResponse) : StreamMessage :=
  { id := r.id, model := r.model, content := r.content, stop_reason := r.stop_reason }

/-- `OllamaClient.completeStream`: performs one full `complete` call and,
on success, yields a `message_start` event then a `message_stop` event;
on failure the error is re-thrown.  The generator's yields are collected
into a list. -/
def ollamaCompleteStream (cfg : OllamaConfig) (options : CompletionOptions) (nowId : String)
    (backend : OllamaGenerateRequest → OllamaTransport) :
    Except Thrown (List StreamEvent) :=
  match ollamaComplete cfg options nowId backend with
  | .ok r =>
      .ok [ { type := .message_start, message := some (streamMessageOf r) },
            { type := .message_stop, message := some (streamMessageOf r) } ]
  | .error e => .error e

/-- Outcome of the `GET /api/tags` call made by `OllamaClient.getModels`
through `sendRequest`: on success, the optional `models` array is already
mapped to its `name`s. -/
inductive TagsTransport where
  | netError (e : Thrown)
  | httpError (status : Nat) (errBody : Option (Option String))
  | success (models : Option (List String))

/-- Outcome of a bare `fetch` whose body is never read
(the health check of `testConnection`). -/
inductive RawFetch where
  | reject (e : Thrown)
  | resp (ok : Bool) (status : Nat)

/-- `OllamaClient.getModels`: `sendRequest` on `/api/tags`, returning
`response.models?.map(m => m.name) || []`; every failure is caught and
becomes the empty list. -/
def ollamaGetModels (t : TagsTransport) : List String :=
  match t with
  | .success models => models.getD []
  | .netError _ => []
  | .httpError _ _ => []

/-- The try-block body of `OllamaClient.testConnection`: `getModels`
first, and when it finds none, a direct health-check fetch of
`/api/tags` whose `ok` flag is the verdict. -/
def ollamaTestConnectionBody (t1 : TagsTransport) (t2 : RawFetch) : Except Thrown Bool :=
  if (ollamaGetModels t1).length > 0 then .ok true
  else
    match t2 with
    | .reject e => .error e
    | .resp ok _ => .ok ok

/-- `OllamaClient.testConnection`: the try-block body under a catch that
turns every thrown value into `false`.  The observable result of the
method is therefore always an ordinary boolean. -/
def ollamaTestConnectionE (t1 : TagsTransport) (t2 : RawFetch) : Except Thrown Bool :=
  match ollamaTestConnectionBody t1 t2 with
  | .ok b => .ok b
  | .error _ => .ok false

/-- `OllamaClient.getProviderName`. -/
def ollamaProviderName : String := "ollama"

/-! ### LM Studio adapter (src/ai/lmstudio-client.ts) -/

/-- src/ai/lmstudio-client.ts `DEFAULT_CONFIG`. -/
structure LMStudioConfig where
  apiBaseUrl : String := "http://localhost:1234"
  timeout : Nat := 60000
  retryOptions : RetryOptions := { maxRetries := 3, initialDelayMs := 1000, maxDelayMs := 10000 }
  defaultModel : String := "default"
  defaultMaxTokens : Nat := 4096
  defaultTemperature : Rat := 0.7

/-- The body `complete` POSTs to `/v1/chat/completions`
(the `requestBody` literal of `LMStudioClient.complete`). -/
structure LMChatRequest where
  model : String
  messages : List Message
  temperature : Rat
  max_tokens : Nat
  top_p : Rat
  top_k : Nat
  stop_sequences : List String
  stream : Bool

/-- The `messages` array of `LMStudioClient.complete`: when the
destructured `system` option (defaulting to the empty string) is truthy,
a system-role message is prepended before `options.messages`. -/
def lmstudioBuildMessages (options : CompletionOptions) : List Message :=
  let system := options.system.getD ""
  if system = "" then options.messages
  else { role := Role.system, content := system } :: options.messages

/-- Build the request exactly as `LMStudioClient.complete` does, with the
destructuring defaults `temperature = cfg default`, `maxTokens = cfg
default`, `topP = 1.0`, `topK = 40`, `stopSequences = []`,
`stream = false`; `model` is the instance's `this.model` field. -/
def lmstudioBuildRequest (cfg : LMStudioConfig) (model : String)
    (options : CompletionOptions) : LMChatRequest :=
  { model := model
    messages := lmstudioBuildMessages options
    temperature := options.temperature.getD cfg.defaultTemperature
    max_tokens := options.maxTokens.getD cfg.defaultMaxTokens
    top_p := options.topP.getD 1
    top_k := options.topK.getD 40
    stop_sequences := options.stopSequences.getD []
    stream := options.stream.getD false }

/-- The `usage` object of an LM Studio success payload. -/
structure LMUsage where
  prompt_tokens : Option Nat
  completion_tokens : Option Nat

/-- LM Studio success payload of `POST /v1/chat/completions`, with the
optional chains `data.choices?.[0]?.message?.content` and
`data.choices?.[0]?.finish_reason` flattened into two optional fields. -/
structure LMData where
  id : Option String
  model : Option String
  usage : Option LMUsage
  choiceMessageContent : Option String
  choiceFinishReason : Option String

/-- How the wrapped transport settles for one LM Studio completion
request: a rejection, a non-2xx response with its body text, or a 2xx
response with a parsed body. -/
inductive LMTransport where
  | netError (e : Thrown)
  | httpError (status : Nat) (bodyText : String)
  | success (data : LMData)

/-- The catch block of `LMStudioClient.complete`: an `Error` instance
whose message includes the text `LM Studio API error` is re-thrown
unchanged; anything else is wrapped into an API-category taxonomy error
(the original value is passed as `options.cause`, which the `UserError`
constructor drops). -/
def lmstudioCompleteCatch (e : Thrown) : Thrown :=
  if e.isErrorInstance && strContains e.messageOf "LM Studio API error" then e
  else createUserError "Failed to complete text with LM Studio" ErrorCategory.apiCat
    (some "Check if LM Studio is running and the model is loaded.") (some e)

/-- Normalization of an LM Studio success payload inside
`LMStudioClient.complete`: `id: data.id || lmstudio_ prefixed timestamp`,
`model: data.model || this.model`, usage counters via `|| 0`, `content`
present only when `data.choices?.[0]?.message?.content` is truthy,
`stop_reason: finish_reason || stop`. -/
def lmstudioNormalize (model nowId : String) (data : LMData) : CompletionResponse :=
  { id := jsOrS data.id ("lmstudio_" ++ nowId)
    model := jsOrS data.model model
    usage := { input_tokens := (data.usage.bind LMUsage.prompt_tokens).getD 0
               output_tokens := (data.usage.bind LMUsage.completion_tokens).getD 0 }
    content :=
      match data.choiceMessageContent with
      | some c => if c = "" then [] else [{ type := "text", text := c }]
      | none => []
    stop_reason := some (jsOrS data.choiceFinishReason "stop") }

/-- `LMStudioClient.complete`: build the request, run it through the
retry/timeout-wrapped fetch (oracle `backend`), throw a taxonomy error
for a non-OK response (message `LM Studio API error`, category `API`;
a `new Error` carrying the status and body text is passed as
`options.cause` and dropped by the `UserError` constructor), normalize a
success payload, and route every thrown value through the catch block. -/
def lmstudioComplete (cfg : LMStudioConfig) (model : String) (nowId : String)
    (options : CompletionOptions) (backend : LMChatRequest → LMTransport) :
    Except Thrown CompletionResponse :=
  match backend (lmstudioBuildRequest cfg model options) with
  | .success data => .ok (lmstudioNormalize model nowId data)
  | .httpError status bodyText =>
      .error (lmstudioCompleteCatch
        (createUserError "LM Studio API error" ErrorCategory.apiCat
          (some "Check LM Studio logs and ensure the model is loaded.")
          (some (.plainErr ("HTTP " ++ toString status ++ ": " ++ bodyText)))))
  | .netError e => .error (lmstudioCompleteCatch e)

/-- `LMStudioClient.completeStream`: sets `stream: true` on the options,
performs one full `complete` call and, on success, yields a
`message_start` event then a `message_stop` event; on failure the error
is re-thrown. -/
def lmstudioCompleteStream (cfg : LMStudioConfig) (model : String) (nowId : String)
    (options : CompletionOptions) (backend : LMChatRequest → LMTransport) :
    Except Thrown (List StreamEvent) :=
  match lmstudioComplete cfg model nowId { options with stream := some true } backend with
  | .ok r =>
      .ok [ { type := .message_start, message := some (streamMessageOf r) },
            { type := .message_stop, message := some (streamMessageOf r) } ]
  | .error e => .error e

/-- Outcome of the `GET /v1/models` probe fetch of
`LMStudioClient.testConnection`: a rejection (including the timeout
wrapper firing), or a response with its `ok` flag, status, and the result
of parsing its JSON body (parsed content unused by the probe). -/
inductive LMModelsFetch where
  | reject (e : Thrown)
  | resp (ok : Bool) (status : Nat) (jsonBody : Except Thrown Unit)

/-- The try-block body of `LMStudioClient.testConnection`: a non-OK
response returns `false` before the body is read; an OK response has its
body parsed (a parse failure throws) and returns `true`. -/
def lmstudioTestConnectionBody (t : LMModelsFetch) : Except Thrown Bool :=
  match t with
  | .reject e => .error e
  | .resp ok _ jsonBody =>
      if ok then
        match jsonBody with
        | .ok _ => .ok true
        | .error e => .error e
      else .ok false

/-- `LMStudioClient.testConnection`: the try-block body under a catch
that turns every thrown value into `false`. -/
def lmstudioTestConnectionE (t : LMModelsFetch) : Except Thrown Bool :=
  match lmstudioTestConnectionBody t with
  | .ok b => .ok b
  | .error _ => .ok false

/-- `LMStudioClient.getProviderName`. -/
def lmstudioProviderName : String := "lmstudio"

/-! ### Provider selector / failover orchestrator (src/ai/index.ts) -/

/-- src/ai/provider.ts `AIProviderType`. -/
inductive AIProviderType where
  | ollama
  | lmstudio
deriving DecidableEq, Repr

/-- The name of a provider, as its adapter's `getProviderName` reports
it. -/
def providerNameOf : AIProviderType → String
  | .ollama => ollamaProviderName
  | .lmstudio => lmstudioProviderName

/-- An adapter instance held by the module singleton: `new
OllamaClient(config)` or `new LMStudioClient(config)` with its merged
configuration. -/
inductive Adapter where
  | ollamaClient (cfg : OllamaConfig)
  | lmstudioClient (cfg : LMStudioConfig)

/-- `getProviderName()` of an adapter instance. -/
def Adapter.getProviderName : Adapter → String
  | .ollamaClient _ => ollamaProviderName
  | .lmstudioClient _ => lmstudioProviderName

/-- The module-level mutable state of src/ai/index.ts: the singleton
`aiClient` and `currentProvider`. -/
structure AIState where
  aiClient : Option Adapter := none
  currentProvider : AIProviderType := .ollama

/-- Externally visible actions `initAI` performs against a provider: a
connectivity probe (`testConnection`) or a completion call
(`complete` / `completeStream`). -/
inductive InitAction where
  | probeCall (p : AIProviderType)
  | completionCall (p : AIProviderType)
deriving DecidableEq, Repr

/-- What one `initAI` call produces: its returned-or-thrown value, the
module state it leaves behind, and the trace of provider actions it
performed. -/
structure InitResult where
  result : Except Thrown Adapter
  state : AIState
  trace : List InitAction

/-- The error thrown inside `initAI` when the alternate provider's probe
also fails. -/
def initBothFailedError : Thrown :=
  createUserError "Failed to connect to any AI service" ErrorCategory.connection
    (some "Make sure either Ollama or LM Studio is running.") none

/-- The error `initAI`'s outer catch wraps around anything thrown in its
try block. -/
def initWrapError (cause : Thrown) : Thrown :=
  createUserError "Failed to initialize AI capabilities" ErrorCategory.initializationCat
    (some "Check if Ollama or LM Studio is running and try again.") (some cause)

/-- `initAI(config)` of src/ai/index.ts.  `probe` is the oracle for
`testConnection` results (the probes are total booleans — see the probe
totality theorem); `cfgProvider` is `config.provider`; `oCfg`/`lCfg` are
the configurations the two adapter constructors produce from `config`.
The preferred provider is `config.provider || currentProvider`; the
matching adapter is stored into the singleton and probed; on probe
failure the other adapter is stored and probed; if that also fails, the
thrown Connection error is caught by the outer catch and re-wrapped into
an Initialization error.  State mutations made before the throw are not
rolled back. -/
def initAI (probe : AIProviderType → Bool) (cfgProvider : Option AIProviderType)
    (oCfg : OllamaConfig) (lCfg : LMStudioConfig) (st : AIState) : InitResult :=
  let provider := cfgProvider.getD st.currentProvider
  match provider with
  | .lmstudio =>
      let client1 := Adapter.lmstudioClient lCfg
      let st1 : AIState := { aiClient := some client1, currentProvider := .lmstudio }
      if probe .lmstudio then
        { result := .ok client1, state := st1, trace := [.probeCall .lmstudio] }
      else
        let client2 := Adapter.ollamaClient oCfg
        let st2 : AIState := { aiClient := some client2, currentProvider := .ollama }
        if probe .ollama then
          { result := .ok client2, state := st2
            trace := [.probeCall .lmstudio, .probeCall .ollama] }
        else
          { result := .error (initWrapError initBothFailedError), state := st2
            trace := [.probeCall .lmstudio, .probeCall .ollama] }
  | .ollama =>
      let client1 := Adapter.ollamaClient oCfg
      let st1 : AIState := { aiClient := some client1, currentProvider := .ollama }
      if probe .ollama then
        { result := .ok client1, state := st1, trace := [.probeCall .ollama] }
      else
        let client2 := Adapter.lmstudioClient lCfg
        let st2 : AIState := { aiClient := some client2, currentProvider := .lmstudio }
        if probe .lmstudio then
          { result := .ok client2, state := st2
            trace := [.probeCall .ollama, .probeCall .lmstudio] }
        else
          { result := .error (initWrapError initBothFailedError), state := st2
            trace := [.probeCall .ollama, .probeCall .lmstudio] }

/-- `getAIClient()` of src/ai/index.ts. -/
def getAIClient (st : AIState) : Except Thrown Adapter :=
  match st.aiClient with
  | none => .error (createUserError "AI module not initialized" ErrorCategory.initializationCat
      (some "Make sure to call initAI() before using AI capabilities.") none)
  | some c => .ok c

/-- `isAIInitialized()` of src/ai/index.ts. -/
def isAIInitialized (st : AIState) : Bool :=
  st.aiClient.isSome

/-- The other known provider, as enumerated by the failover branches of
`initAI`. -/
def otherProvider : AIProviderType → AIProviderType
  | .ollama => .lmstudio
  | .lmstudio => .ollama

/-! ### Retry policy (`withRetry`, src/utils/async.ts)

Modelled from the spec: the implementation of `withRetry` lives in
src/utils/async.ts, which is absent from the provided sources (only the
two adapters that import it are present).  Per the spec (§4.1): on
failure it retries up to `maxRetries` additional times with exponential
backoff, `delay = min(maxDelayMs, initialDelayMs * 2 ^ attempt)`, and
surfaces the last failure when all attempts are exhausted.  The operation
is modelled as a map from the attempt index (0-based) to that attempt's
outcome; the wrapper returns the settled outcome, the total number of
attempts made, and the list of backoff delays slept between attempts. -/

/-- Modelled from the spec: the backoff delay slept after a failed
attempt, `min(maxDelayMs, initialDelayMs * 2 ^ attempt)`. -/
def retryDelay (o : RetryOptions) (attempt : Nat) : Nat :=
  min o.maxDelayMs (o.initialDelayMs * 2 ^ attempt)

/-- Modelled from the spec: the retry loop, with `retriesLeft` retries
still allowed after the current attempt. -/
def withRetryAux {E A : Type} (op : Nat → Except E A) (o : RetryOptions)
    (attempt : Nat) (retriesLeft : Nat) : Except E A × Nat × List Nat :=
  match op attempt, retriesLeft with
  | .ok a, _ => (.ok a, 1, [])
  | .error e, 0 => (.error e, 1, [])
  | .error _, Nat.succ k =>
      let rest := withRetryAux op o (attempt + 1) k
      (rest.1, rest.2.1 + 1, retryDelay o attempt :: rest.2.2)

/-- Modelled from the spec: `withRetry(operation, options)` — run the
operation, retrying up to `maxRetries` additional times. -/
def withRetry {E A : Type} (op : Nat → Except E A) (o : RetryOptions) :
    Except E A × Nat × List Nat :=
  withRetryAux op o 0 o.maxRetries

/-! ### Reference semantics of `getConfig()`

Both adapters implement `getConfig()` as `return { ...this.config }` — a
spread, i.e. a fresh top-level object whose scalar fields are copied and
whose `retryOptions` field still holds the same object reference as the
adapter's live config.  To reason about mutation through the returned
object, config objects are modelled on an explicit heap: `ConfigObj` is
the top-level object (its `retryOptions` field holds an address), and a
`JSHeap` maps addresses to config objects and to nested `RetryOptions`
objects. -/

/-- A top-level config object as stored on the heap: scalar fields plus
the address of the nested `retryOptions` object. -/
structure ConfigObj where
  apiBaseUrl : String
  timeout : Nat
  retryOptionsRef : Nat
  defaultModel : String
  defaultMaxTokens : Nat
  defaultTemperature : Rat

/-- The heap of config-shaped objects: `configs` and `retries` map
addresses to live objects, `next` is the next fresh address (every
allocated address is below `next`). -/
structure JSHeap where
  configs : Nat → ConfigObj
  retries : Nat → RetryOptions
  next : Nat

/-- `getConfig()`: allocate a fresh top-level object holding a
field-for-field copy of the object at `a` — in particular the copy's
`retryOptionsRef` is the same address — and return its address. -/
def getConfigShallowCopy (h : JSHeap) (a : Nat) : Nat × JSHeap :=
  (h.next,
   { configs := fun x => if x = h.next then h.configs a else h.configs x
     retries := h.retries
     next := h.next + 1 })

/-- A caller mutating a scalar field of the object at `a`
(`obj.timeout = v`): writes into that one top-level object only. -/
def writeTimeoutAt (h : JSHeap) (a : Nat) (v : Nat) : JSHeap :=
  { h with configs := fun x => if x = a then { h.configs x with timeout := v } else h.configs x }

/-- A caller mutating the nested object reached from `a`
(`obj.retryOptions.maxRetries = v`): writes through the `retryOptionsRef`
of the object at `a`. -/
def writeRetryMaxAt (h : JSHeap) (a : Nat) (v : Nat) : JSHeap :=
  { h with retries := fun x =>
      if x = (h.configs a).retryOptionsRef then { h.retries x with maxRetries := v }
      else h.retries x }

/-- Read `obj.timeout` of the object at `a`. -/
def viewTimeout (h : JSHeap) (a : Nat) : Nat :=
  (h.configs a).timeout

/-- Read `obj.retryOptions.maxRetries` of the object at `a`. -/
def viewRetryMax (h : JSHeap) (a : Nat) : Nat :=
  (h.retries (h.configs a).retryOptionsRef).maxRetries

/-- A well-formed heap address: already allocated, hence distinct from
every address a later allocation returns. -/
def JSHeap.allocated (h : JSHeap) (a : Nat) : Prop :=
  a < h.next

/-- Start/stop framing of a finite stream of events: non-empty, first
event tagged `message_start`, last tagged `message_stop`, and no event
after the `message_stop` event (every stop-tagged event is the last
one). -/
def wellFramed (evs : List StreamEvent) : Prop :=
  evs ≠ []
  ∧ evs.head?.map StreamEvent.type = some StreamEventType.message_start
  ∧ evs.getLast?.map StreamEvent.type = some StreamEventType.message_stop
  ∧ ∀ i : Fin evs.length, (evs.get i).type = StreamEventType.message_stop →
      (i : Nat) = evs.length - 1

/-- A start/stop event pair wrapping one full response is well framed. -/
theorem wellFramed_pair (m1 m2 : Option StreamMessage) (d1 d2 : Option StreamDelta) :
    wellFramed [ { type := .message_start, message := m1, delta := d1 },
                 { type := .message_stop, message := m2, delta := d2 } ] := by
  refine ⟨by simp, rfl, rfl, ?_⟩
  intro i hi
  fin_cases i
  · exact absurd hi (by simp)
  · rfl

/-! ### Theorems for the claims -/

/-- C2 (response normalization): whenever the Ollama backend answers the
built request with a success payload carrying all four fields
`{model, response, prompt_eval_count, eval_count}`, `complete` returns a
`CompletionResponse` whose `model` is the payload's model, whose usage
counters are `prompt_eval_count` and `eval_count`, and whose `content` is
the single text block holding the payload's `response`. -/
theorem ollama_response_normalization
    (cfg : OllamaConfig) (options : CompletionOptions) (nowId m s : String) (p e : Nat)
    (backend : OllamaGenerateRequest → OllamaTransport)
    (hb : backend (ollamaBuildRequest cfg options)
      = .success { model := m, response := s, prompt_eval_count := some p, eval_count := some e }) :
    ollamaComplete cfg options nowId backend =
      .ok { id := nowId
            model := m
            usage := { input_tokens := p, output_tokens := e }
            content := [{ type := "text", text := s }]
            stop_reason := none } := by
  simp [ollamaComplete, ollamaSendRequest, hb]

/-- C2 witness: the spec's synthetic payload
`{model devstral, response hi, prompt_eval_count 5, eval_count 2}`. -/
theorem ollama_response_normalization_witness :
    ollamaComplete {} { messages := [{ role := .user, content := "hello" }] } "0"
      (fun _ => .success { model := "devstral:24b", response := "hi"
                           prompt_eval_count := some 5, eval_count := some 2 }) =
      .ok { id := "0"
            model := "devstral:24b"
            usage := { input_tokens := 5, output_tokens := 2 }
            content := [{ type := "text", text := "hi" }]
            stop_reason := none } :=
  ollama_response_normalization {} _ "0" _ _ 5 2 _ rfl

/-- C4 (error taxonomy propagation, failing on the code): on an Ollama
backend answering HTTP 500 with an unparsable body, `sendRequest` does
throw the taxonomy error built by `handleErrorResponse` (AI_SERVICE
category), but the catch block of `OllamaClient.complete` replaces it by
a plain `Error` whose message is the generic `Unknown error` — no
category, no cause chain — so the error surfaced across the adapter's
public contract is not a typed error of the taxonomy. -/
theorem ollama_error_catch_discards_taxonomy :
    ollamaSendRequest (.httpError 500 none)
      = .error (.userErr "Ollama API error: HTTP error 500" ErrorCategory.aiService none none)
    ∧ ollamaComplete {} { messages := [{ role := .user, content := "hi" }] } "0"
        (fun _ => .httpError 500 none)
      = .error (.plainErr "Unknown error")
    ∧ Thrown.isTaxonomy (.plainErr "Unknown error") = false
    ∧ Thrown.causeOf (.plainErr "Unknown error") = none := by
  exact ⟨rfl, rfl, rfl, rfl⟩

/-- C6 (probe totality): `testConnection` on either adapter settles to an
ordinary boolean for every transport outcome — no thrown value escapes
the catch blocks — and a backend answering HTTP 500 on the probe endpoint
(`/api/tags` for Ollama, `/v1/models` for LM Studio) yields `false`. -/
theorem testConnection_total :
    (∀ t1 t2, (ollamaTestConnectionE t1 t2).isOk = true)
    ∧ (∀ t, (lmstudioTestConnectionE t).isOk = true)
    ∧ ollamaTestConnectionE (.httpError 500 none) (.resp false 500) = .ok false
    ∧ lmstudioTestConnectionE (.resp false 500 (.ok ())) = .ok false := by
  refine ⟨?_, ?_, rfl, rfl⟩
  · intro t1 t2
    unfold ollamaTestConnectionE
    split <;> rfl
  · intro t
    unfold lmstudioTestConnectionE
    split <;> rfl

/-- C1 (failover correctness): when the effective preferred provider's
probe returns `false` and the other provider's probe returns `true`,
`initAI` resolves to an adapter whose `getProviderName()` is the
alternate provider's name, and the trace of actions performed during
initialization contains no completion call against any provider — in
particular none against the preferred one. -/
theorem initAI_failover (probe : AIProviderType → Bool) (pref : AIProviderType)
    (cfgProvider : Option AIProviderType) (oCfg : OllamaConfig) (lCfg : LMStudioConfig)
    (st : AIState)
    (hpref : cfgProvider.getD st.currentProvider = pref)
    (hfail : probe pref = false) (hok : probe (otherProvider pref) = true) :
    ∃ a, (initAI probe cfgProvider oCfg lCfg st).result = .ok a
      ∧ a.getProviderName = providerNameOf (otherProvider pref)
      ∧ ∀ p, InitAction.completionCall p ∉ (initAI probe cfgProvider oCfg lCfg st).trace := by
  cases pref with
  | ollama =>
      refine ⟨Adapter.lmstudioClient lCfg, ?_, rfl, ?_⟩
      · simp [initAI, hpref, hfail, otherProvider] at *
        simp [hpref, hfail, hok]
      · intro p
        simp [initAI, hpref, hfail, otherProvider] at *
        simp [hpref, hfail, hok]
  | lmstudio =>
      refine ⟨Adapter.ollamaClient oCfg, ?_, rfl, ?_⟩
      · simp [initAI, hpref, hfail, otherProvider] at *
        simp [hpref, hfail, hok]
      · intro p
        simp [initAI, hpref, hfail, otherProvider] at *
        simp [hpref, hfail, hok]

/-- C1 witness: preferred Ollama unreachable, LM Studio reachable. -/
theorem initAI_failover_witness :
    ∃ a, (initAI (fun p => decide (p = .lmstudio)) (some .ollama) {} {} {}).result = .ok a
      ∧ a.getProviderName = providerNameOf (otherProvider .ollama)
      ∧ ∀ p, InitAction.completionCall p
          ∉ (initAI (fun p => decide (p = .lmstudio)) (some .ollama) {} {} {}).trace :=
  initAI_failover _ .ollama _ {} {} {} rfl (by decide) (by decide)

/-- C5 counterexample: with both probes failing (preferred Ollama), the
error `initAI` surfaces is the outer wrapper whose category is
Initialization — not Connection — and whose message names neither Ollama
nor LM Studio; the claim asserts a Connection-category error whose
message names both attempted providers. -/
theorem initAI_bothfail_error_cex :
    (initAI (fun _ => false) (some .ollama) {} {} {}).result
      = .error (initWrapError initBothFailedError)
    ∧ (initWrapError initBothFailedError).categoryOf ≠ some ErrorCategory.connection
    ∧ strContains (initWrapError initBothFailedError).messageOf "Ollama" = false
    ∧ strContains (initWrapError initBothFailedError).messageOf "LM Studio" = false := by
  refine ⟨rfl, by decide, by decide, by decide⟩

/-- C5 (amended): when both probes fail, `initAI` surfaces an
Initialization-category error (message `Failed to initialize AI
capabilities`) that names neither provider in its message and carries no
`cause` — `initAI` passes the inner error as `options.cause`, but the
`UserError` constructor drops it; the Connection-category error created
inside the try block (message `Failed to connect to any AI service`)
also names neither provider in its message: both attempted providers are
named only in the two errors' resolution hints. -/
theorem initAI_bothfail_error_shape (probe : AIProviderType → Bool)
    (cfgProvider : Option AIProviderType) (oCfg : OllamaConfig) (lCfg : LMStudioConfig)
    (st : AIState)
    (hO : probe .ollama = false) (hL : probe .lmstudio = false) :
    (initAI probe cfgProvider oCfg lCfg st).result = .error (initWrapError initBothFailedError)
    ∧ (initWrapError initBothFailedError).categoryOf = some ErrorCategory.initializationCat
    ∧ (initWrapError initBothFailedError).causeOf = none
    ∧ strContains (initWrapError initBothFailedError).messageOf "Ollama" = false
    ∧ strContains (initWrapError initBothFailedError).messageOf "LM Studio" = false
    ∧ initBothFailedError.categoryOf = some ErrorCategory.connection
    ∧ strContains initBothFailedError.messageOf "Ollama" = false
    ∧ strContains initBothFailedError.messageOf "LM Studio" = false
    ∧ strContains (jsOrS initBothFailedError.resolutionOf "") "Ollama" = true
    ∧ strContains (jsOrS initBothFailedError.resolutionOf "") "LM Studio" = true
    ∧ strContains (jsOrS (initWrapError initBothFailedError).resolutionOf "") "Ollama" = true
    ∧ strContains (jsOrS (initWrapError initBothFailedError).resolutionOf "") "LM Studio" = true := by
  refine ⟨?_, rfl, rfl, by decide, by decide, rfl, by decide, by decide,
    by decide, by decide, by decide, by decide⟩
  cases h : cfgProvider.getD st.currentProvider <;> simp [initAI, h, hO, hL]

/-- C5 witness: both probes failing concretely. -/
theorem initAI_bothfail_error_shape_witness :
    (initAI (fun _ => false) none {} {} {}).result = .error (initWrapError initBothFailedError)
    ∧ (initWrapError initBothFailedError).categoryOf = some ErrorCategory.initializationCat
    ∧ (initWrapError initBothFailedError).causeOf = none
    ∧ strContains (initWrapError initBothFailedError).messageOf "Ollama" = false
    ∧ strContains (initWrapError initBothFailedError).messageOf "LM Studio" = false
    ∧ initBothFailedError.categoryOf = some ErrorCategory.connection
    ∧ strContains initBothFailedError.messageOf "Ollama" = false
    ∧ strContains initBothFailedError.messageOf "LM Studio" = false
    ∧ strContains (jsOrS initBothFailedError.resolutionOf "") "Ollama" = true
    ∧ strContains (jsOrS initBothFailedError.resolutionOf "") "LM Studio" = true
    ∧ strContains (jsOrS (initWrapError initBothFailedError).resolutionOf "") "Ollama" = true
    ∧ strContains (jsOrS (initWrapError initBothFailedError).resolutionOf "") "LM Studio" = true :=
  initAI_bothfail_error_shape (fun _ => false) none {} {} {} rfl rfl

/-- The adapter instantiated last by a fully failing `initAI` call: the
alternate of the effective preferred provider. -/
def alternateAdapter (p : AIProviderType) (oCfg : OllamaConfig) (lCfg : LMStudioConfig) :
    Adapter :=
  match p with
  | .lmstudio => .ollamaClient oCfg
  | .ollama => .lmstudioClient lCfg

/-- C10 (singleton state after failed initialization): when both probes
fail, `initAI` throws, yet the module singleton has already been replaced
by the last attempted adapter — afterwards `isAIInitialized()` is `true`
and `getAIClient()` returns that unconnected adapter instead of failing
with an Initialization error. -/
theorem initAI_no_rollback (probe : AIProviderType → Bool)
    (cfgProvider : Option AIProviderType) (oCfg : OllamaConfig) (lCfg : LMStudioConfig)
    (st : AIState)
    (hO : probe .ollama = false) (hL : probe .lmstudio = false) :
    (initAI probe cfgProvider oCfg lCfg st).result.isOk = false
    ∧ (initAI probe cfgProvider oCfg lCfg st).state.aiClient
        = some (alternateAdapter (cfgProvider.getD st.currentProvider) oCfg lCfg)
    ∧ isAIInitialized (initAI probe cfgProvider oCfg lCfg st).state = true
    ∧ getAIClient (initAI probe cfgProvider oCfg lCfg st).state
        = .ok (alternateAdapter (cfgProvider.getD st.currentProvider) oCfg lCfg) := by
  cases h : cfgProvider.getD st.currentProvider <;>
    simp [initAI, h, hO, hL, alternateAdapter, isAIInitialized, getAIClient, Except.isOk,
      Except.toBool]

/-- C10 witness: both probes failing, preferred LM Studio, so the
singleton is left holding the unconnected Ollama adapter. -/
theorem initAI_no_rollback_witness :
    (initAI (fun _ => false) (some .lmstudio) {} {} {}).result.isOk = false
    ∧ (initAI (fun _ => false) (some .lmstudio) {} {} {}).state.aiClient
        = some (alternateAdapter ((some AIProviderType.lmstudio).getD ({} : AIState).currentProvider) {} {})
    ∧ isAIInitialized (initAI (fun _ => false) (some .lmstudio) {} {} {}).state = true
    ∧ getAIClient (initAI (fun _ => false) (some .lmstudio) {} {} {}).state
        = .ok (alternateAdapter ((some AIProviderType.lmstudio).getD ({} : AIState).currentProvider) {} {}) :=
  initAI_no_rollback (fun _ => false) (some .lmstudio) {} {} {} rfl rfl

/-- C7 (retry bound): with the adapters' default retry options
(`maxRetries 3, initialDelayMs 1000, maxDelayMs 10000`), a persistently
failing operation is attempted exactly 4 times in total, the backoff
delays slept before attempts 2, 3 and 4 are 1000, 2000 and 4000 ms, every
delay the policy can produce is at most 10000 ms, and the failure finally
surfaced is the last (fourth) attempt's failure. -/
theorem withRetry_bound {E A : Type} (op : Nat → Except E A) (err : Nat → E)
    (hfail : ∀ i, op i = .error (err i)) :
    withRetry op { maxRetries := 3, initialDelayMs := 1000, maxDelayMs := 10000 }
      = (.error (err 3), 4, [1000, 2000, 4000])
    ∧ (∀ d ∈ [1000, 2000, 4000], d ≤ 10000)
    ∧ ∀ attempt : Nat,
        retryDelay { maxRetries := 3, initialDelayMs := 1000, maxDelayMs := 10000 } attempt
          ≤ 10000 := by
  refine ⟨?_, by decide, fun attempt => Nat.min_le_left _ _⟩
  simp [withRetry, withRetryAux, hfail 0, hfail 1, hfail 2, hfail 3, retryDelay]

/-- C7 witness: the always-failing operation returning its attempt
index as the error. -/
theorem withRetry_bound_witness :
    withRetry (fun i => (Except.error i : Except Nat Unit))
        { maxRetries := 3, initialDelayMs := 1000, maxDelayMs := 10000 }
      = (.error 3, 4, [1000, 2000, 4000])
    ∧ (∀ d ∈ [1000, 2000, 4000], d ≤ 10000)
    ∧ ∀ attempt : Nat,
        retryDelay { maxRetries := 3, initialDelayMs := 1000, maxDelayMs := 10000 } attempt
          ≤ 10000 :=
  withRetry_bound (fun i => (Except.error i : Except Nat Unit)) (fun i => i) (fun _ => rfl)

/-- C3 (stream framing): every successful `completeStream` invocation on
either adapter yields a non-empty event sequence whose first event is
tagged `message_start`, whose last event is tagged `message_stop`, and in
which no event follows the `message_stop` event. -/
theorem completeStream_framing
    (cfgO : OllamaConfig) (optsO : CompletionOptions) (idO : String)
    (bO : OllamaGenerateRequest → OllamaTransport)
    (cfgL : LMStudioConfig) (modelL idL : String) (optsL : CompletionOptions)
    (bL : LMChatRequest → LMTransport) (evsO evsL : List StreamEvent)
    (hO : ollamaCompleteStream cfgO optsO idO bO = .ok evsO)
    (hL : lmstudioCompleteStream cfgL modelL idL optsL bL = .ok evsL) :
    wellFramed evsO ∧ wellFramed evsL := by
  constructor
  · unfold ollamaCompleteStream at hO
    split at hO
    · cases hO
      exact wellFramed_pair _ _ _ _
    · cases hO
  · unfold lmstudioCompleteStream at hL
    split at hL
    · cases hL
      exact wellFramed_pair _ _ _ _
    · cases hL

/-- A concrete successful Ollama stream for the framing witness. -/
def framingSampleO : List StreamEvent :=
  let r : CompletionResponse :=
    { id := "0", model := "m", usage := { input_tokens := 1, output_tokens := 1 }
      content := [{ type := "text", text := "hi" }], stop_reason := none }
  [ { type := .message_start, message := some (streamMessageOf r) },
    { type := .message_stop, message := some (streamMessageOf r) } ]

/-- A concrete successful LM Studio stream for the framing witness. -/
def framingSampleL : List StreamEvent :=
  let r : CompletionResponse :=
    { id := "x", model := "m", usage := { input_tokens := 0, output_tokens := 0 }
      content := [{ type := "text", text := "ok" }], stop_reason := some "stop" }
  [ { type := .message_start, message := some (streamMessageOf r) },
    { type := .message_stop, message := some (streamMessageOf r) } ]

/-- C3 witness: concrete successful streams on both adapters. -/
theorem completeStream_framing_witness :
    wellFramed framingSampleO ∧ wellFramed framingSampleL :=
  completeStream_framing {} { messages := [{ role := .user, content := "hi" }] } "0"
    (fun _ => .success { model := "m", response := "hi"
                         prompt_eval_count := some 1, eval_count := some 1 })
    {} "default" "0" { messages := [{ role := .user, content := "hi" }] }
    (fun _ => .success { id := some "x", model := some "m", usage := none
                         choiceMessageContent := some "ok", choiceFinishReason := none })
    framingSampleO framingSampleL rfl rfl

/-- C9 counterexample: with a non-empty `system` option and one user
message `hi`, the prompt the Ollama adapter sends is exactly `hi` — the
system text appears nowhere in it (and the request body built by
`OllamaClient.complete` carries no `system` field at all), refuting the
claim that the flattened Ollama encoding places the system text as a
preamble before the message contents. -/
theorem system_preamble_cex :
    (ollamaBuildRequest {}
        { system := some "You are a helpful assistant"
          messages := [{ role := .user, content := "hi" }] }).prompt = "hi"
    ∧ strContains "hi" "You are a helpful assistant" = false := by
  exact ⟨rfl, by decide⟩

/-- C9 (amended): the LM Studio adapter prepends a non-empty
`options.system` as a system-role message with the conversation messages
following in their original order; the Ollama adapter ignores
`options.system` entirely — its flattened prompt is the newline-join of
the message contents and is independent of the system option. -/
theorem system_preamble_amended
    (cfgL : LMStudioConfig) (modelL : String) (opts : CompletionOptions) (s : String)
    (hs : opts.system = some s) (hne : s ≠ "")
    (cfgO : OllamaConfig) (optsO : CompletionOptions) (sys : Option String) :
    (lmstudioBuildRequest cfgL modelL opts).messages
        = { role := Role.system, content := s } :: opts.messages
    ∧ (ollamaBuildRequest cfgO { optsO with system := sys }).prompt
        = String.intercalate "\n" (optsO.messages.map Message.content) := by
  constructor
  · simp [lmstudioBuildRequest, lmstudioBuildMessages, hs, hne]
  · rfl

/-- C9 witness: a concrete non-empty system preamble on both adapters. -/
theorem system_preamble_amended_witness :
    (lmstudioBuildRequest {} "default"
        { system := some "Be brief.", messages := [{ role := .user, content := "hi" }] }).messages
      = { role := Role.system, content := "Be brief." }
          :: ({ system := some "Be brief."
                messages := [{ role := Role.user, content := "hi" }] } : CompletionOptions).messages
    ∧ (ollamaBuildRequest {}
        { ({ messages := [{ role := Role.user, content := "hi" }] } : CompletionOptions) with
            system := some "Be brief." }).prompt
      = String.intercalate "\n"
          (({ messages := [{ role := Role.user, content := "hi" }] } : CompletionOptions).messages.map
            Message.content) :=
  system_preamble_amended {} "default" _ "Be brief." rfl (by decide) {} _ (some "Be brief.")

/-- A concrete heap for the config-isolation counterexample: the
adapter's internal config object lives at address 0 and its nested
`retryOptions` object (the adapters' defaults) at address 0 of the
retry-options heap. -/
def cexHeap : JSHeap :=
  { configs := fun _ =>
      { apiBaseUrl := "http://localhost:11434", timeout := 60000, retryOptionsRef := 0
        defaultModel := "devstral:24b", defaultMaxTokens := 4096, defaultTemperature := 0.7 }
    retries := fun _ => { maxRetries := 3, initialDelayMs := 1000, maxDelayMs := 10000 }
    next := 1 }

/-- C8 counterexample: call `getConfig()` twice (two shallow copies of
the internal config at address 0), then set `retryOptions.maxRetries` to
99 through the first copy: the second copy's view moves from 3 to 99, and
so does the adapter's internal view — refuting the claim that mutating a
nested field of the first returned object affects neither the second
returned object nor the adapter's internal configuration. -/
theorem getConfig_nested_mutation_cex :
    viewRetryMax (getConfigShallowCopy (getConfigShallowCopy cexHeap 0).2 0).2
        (getConfigShallowCopy (getConfigShallowCopy cexHeap 0).2 0).1 = 3
    ∧ viewRetryMax
        (writeRetryMaxAt (getConfigShallowCopy (getConfigShallowCopy cexHeap 0).2 0).2
          (getConfigShallowCopy cexHeap 0).1 99)
        (getConfigShallowCopy (getConfigShallowCopy cexHeap 0).2 0).1 = 99
    ∧ viewRetryMax
        (writeRetryMaxAt (getConfigShallowCopy (getConfigShallowCopy cexHeap 0).2 0).2
          (getConfigShallowCopy cexHeap 0).1 99) 0 = 99 := by
  exact ⟨rfl, rfl, rfl⟩

/-- C8 (amended): `getConfig()` returns a fresh shallow copy, so scalar
(top-level) fields are isolated — mutating the first copy's `timeout`
changes neither the second copy's view nor the adapter's internal one —
but the nested `retryOptions` object is shared by reference, so mutating
it through the first copy is observed through the second copy and through
the adapter's internal configuration. -/
theorem getConfig_shallow_isolation (h : JSHeap) (a : Nat) (ha : JSHeap.allocated h a)
    (v w c1 c2 : Nat) (h2 : JSHeap)
    (hc1 : c1 = (getConfigShallowCopy h a).1)
    (hc2 : c2 = (getConfigShallowCopy (getConfigShallowCopy h a).2 a).1)
    (hh2 : h2 = (getConfigShallowCopy (getConfigShallowCopy h a).2 a).2) :
    (viewTimeout (writeTimeoutAt h2 c1 v) c2 = viewTimeout h2 c2
      ∧ viewTimeout (writeTimeoutAt h2 c1 v) a = viewTimeout h2 a)
    ∧ (viewRetryMax (writeRetryMaxAt h2 c1 w) c2 = w
      ∧ viewRetryMax (writeRetryMaxAt h2 c1 w) a = w) := by
  subst hc1 hc2 hh2
  have ha' : a < h.next := ha
  have e1 : a ≠ h.next := Nat.ne_of_lt ha'
  have e2 : a ≠ h.next + 1 := by omega
  have e3 : h.next + 1 ≠ h.next := by omega
  simp [getConfigShallowCopy, viewTimeout, writeTimeoutAt, viewRetryMax, writeRetryMaxAt,
    e1, e2, e3]

/-- C8 witness: the concrete heap with the adapter config at address 0
and two successive `getConfig()` copies. -/
theorem getConfig_shallow_isolation_witness :
    (viewTimeout
        (writeTimeoutAt (getConfigShallowCopy (getConfigShallowCopy cexHeap 0).2 0).2
          (getConfigShallowCopy cexHeap 0).1 7)
        (getConfigShallowCopy (getConfigShallowCopy cexHeap 0).2 0).1
      = viewTimeout (getConfigShallowCopy (getConfigShallowCopy cexHeap 0).2 0).2
          (getConfigShallowCopy (getConfigShallowCopy cexHeap 0).2 0).1
      ∧ viewTimeout
          (writeTimeoutAt (getConfigShallowCopy (getConfigShallowCopy cexHeap 0).2 0).2
            (getConfigShallowCopy cexHeap 0).1 7) 0
        = viewTimeout (getConfigShallowCopy (getConfigShallowCopy cexHeap 0).2 0).2 0)
    ∧ (viewRetryMax
        (writeRetryMaxAt (getConfigShallowCopy (getConfigShallowCopy cexHeap 0).2 0).2
          (getConfigShallowCopy cexHeap 0).1 99)
        (getConfigShallowCopy (getConfigShallowCopy cexHeap 0).2 0).1 = 99
      ∧ viewRetryMax
          (writeRetryMaxAt (getConfigShallowCopy (getConfigShallowCopy cexHeap 0).2 0).2
            (getConfigShallowCopy cexHeap 0).1 99) 0 = 99) :=
  getConfig_shallow_isolation cexHeap 0 Nat.zero_lt_one 7 99 _ _ _ rfl rfl rfl

end KnightCode
